import Mathlib

/-!
Shallow embedding of the rust-up-knowledge static documentation site:
its content documents (front-matter metadata), the exported site
configuration object, the landing-page component, and the parts of the
site-assembly pipeline (content loading, navigation composition, page
rendering) that the specification describes.  Pieces implemented by the
underlying framework rather than by this repository are modelled from
the specification and marked as such in their doc comments.
-/

namespace RustUp

/-- Front-matter metadata of a content document: an optional explicit
integer ordering position, an optional title override and an optional
slug override, as written in the header block of each Markdown file. -/
structure FrontMatter where
  sidebar_position : Option Nat
  title : Option String
  slug : Option String
deriving DecidableEq, Repr

/-- A content document: its path relative to the content root, the
directory (section) containing it, and its parsed front-matter.  Bodies
are elided; no claim refers to body text of a generic document. -/
structure Document where
  path : String
  dir : String
  fm : FrontMatter
deriving DecidableEq, Repr

/-- The content documents of the repository, in discovery (path) order.
Files whose real names are unknown carry placeholder paths of the form
unnamed-NNN; their front-matter is transcribed from the sources.  The
last unnamed file (the note on the three compilation phases) has no
front-matter header block at all. -/
def repoDocs : List Document :=
  [ ⟨"ch3-common/functions.md", "ch3-common", ⟨some 3, some "Functions", none⟩⟩,
    ⟨"ch3-common/index.md", "ch3-common", ⟨some 1, some "Preface", none⟩⟩,
    ⟨"ch3-common/variables.md", "ch3-common", ⟨some 2, some "Variables and Basic Types", none⟩⟩,
    ⟨"ch4-ownership/ownership.md", "ch4-ownership", ⟨some 2, some "What is Ownership?", none⟩⟩,
    ⟨"ch4-ownership/reference.md", "ch4-ownership", ⟨some 3, some "References and Borrowing", none⟩⟩,
    ⟨"unnamed-000a.md", "unnamed", ⟨some 3, none, none⟩⟩,
    ⟨"unnamed-000b.md", "unnamed", ⟨some 1, none, none⟩⟩,
    ⟨"unnamed-001a.md", "unnamed", ⟨some 4, none, none⟩⟩,
    ⟨"unnamed-001b.md", "unnamed", ⟨some 1, none, some "/intro"⟩⟩,
    ⟨"unnamed-002.md", "unnamed", ⟨some 1, some "Preface", none⟩⟩,
    ⟨"unnamed-003.md", "unnamed", ⟨some 2, some "Variables and Basic Types", none⟩⟩,
    ⟨"unnamed-004a.md", "unnamed", ⟨some 4, some "Control Flow", none⟩⟩,
    ⟨"unnamed-004b.md", "unnamed", ⟨none, none, none⟩⟩,
    ⟨"unnamed-005.md", "unnamed", ⟨some 1, some "Getting started", none⟩⟩ ]

/-- The one content file with no front-matter header block: the short
note on the three conceptual compilation phases, the second file packed
into unnamed part 004. -/
def phasesFragment : Document := ⟨"unnamed-004b.md", "unnamed", ⟨none, none, none⟩⟩

/-- Modelled from the spec: the sidebar comparison used to order the
documents of one section.  Documents with explicit positions come
first, ordered by position; a document with no explicit position sorts
after every positioned one; ties (equal positions, or two position-less
documents) leave the stable discovery order untouched. -/
def sidebarLEb (a b : Document) : Bool :=
  match a.fm.sidebar_position, b.fm.sidebar_position with
  | some p, some q => p ≤ q
  | some _, none => true
  | none, some _ => false
  | none, none => true

/-- The sidebar comparison as a relation. -/
def sidebarLE (a b : Document) : Prop := sidebarLEb a b = true

instance : DecidableRel sidebarLE := fun a b => instDecidableEqBool (sidebarLEb a b) true

instance : IsTotal Document sidebarLE := by
  constructor
  intro a b
  unfold sidebarLE sidebarLEb
  rcases a.fm.sidebar_position with _ | p <;> rcases b.fm.sidebar_position with _ | q <;>
    simp [Nat.le_total]

instance : IsTrans Document sidebarLE := by
  constructor
  intro a b c hab hbc
  unfold sidebarLE sidebarLEb at *
  rcases ha : a.fm.sidebar_position with _ | p <;>
    rcases hb : b.fm.sidebar_position with _ | q <;>
    rcases hc : c.fm.sidebar_position with _ | r <;>
    simp_all
  exact Nat.le_trans hab hbc

/-- Modelled from the spec: the derived Sidebar Ordering of one
section — the documents of that section, in discovery order, sorted
stably by the sidebar comparison. -/
def sectionSidebar (sec : String) (docs : List Document) : List Document :=
  List.insertionSort sidebarLE (docs.filter (fun d => d.dir = sec))

/-- Index of the first occurrence of a document in a list (length of the
list when absent). -/
def idx (a : Document) : List Document → Nat
  | [] => 0
  | b :: t => if a = b then 0 else idx a t + 1

theorem idx_lt_of_pairwise {l : List Document} (hp : l.Pairwise sidebarLE)
    {a b : Document} (ha : a ∈ l) (hb : b ∈ l) (hne : a ≠ b)
    (hnr : ¬ sidebarLE b a) : idx a l < idx b l := by
  induction l with
  | nil => cases ha
  | cons x t ih =>
      rcases List.pairwise_cons.mp hp with ⟨hx, ht⟩
      by_cases hax : a = x
      · subst hax
        have hbt : b ∈ t := by
          rcases List.mem_cons.mp hb with h | h
          · exact absurd h.symm hne
          · exact h
        simp [idx, hne.symm]
      · have hat : a ∈ t := by
          rcases List.mem_cons.mp ha with h | h
          · exact absurd h hax
          · exact h
        by_cases hbx : b = x
        · subst hbx
          exact absurd (hx a hat) hnr
        · have hbt : b ∈ t := by
            rcases List.mem_cons.mp hb with h | h
            · exact absurd h hbx
            · exact h
          have := ih ht hat hbt
          simp only [idx, if_neg hax, if_neg hbx]
          omega

/-- One locale block, as in the i18n field of the configuration. -/
structure I18n where
  defaultLocale : String
  locales : List String
deriving DecidableEq, Repr

/-- The announcement-bar block of the theme configuration. -/
structure AnnouncementBar where
  id : String
  backgroundColor : String
  isCloseable : Bool
  content : String
deriving DecidableEq, Repr

/-- The navbar logo block. -/
structure Logo where
  alt : String
  src : String
deriving DecidableEq, Repr

/-- One navbar item: a target (internal route or external URL), a label
and a left/right placement.  The target field is named to in the source
(href for the GitHub item); to is a reserved word in Lean. -/
structure NavItem where
  target : String
  label : String
  position : String
deriving DecidableEq, Repr

/-- The navbar block of the theme configuration. -/
structure Navbar where
  title : String
  logo : Logo
  hideOnScroll : Bool
  items : List NavItem
deriving DecidableEq, Repr

/-- One footer link. -/
structure FooterLink where
  label : String
  href : String
deriving DecidableEq, Repr

/-- One titled footer link group. -/
structure FooterLinkGroup where
  title : String
  items : List FooterLink
deriving DecidableEq, Repr

/-- The footer block: style, link groups and the copyright line. -/
structure Footer where
  style : String
  links : List FooterLinkGroup
  copyright : String
deriving DecidableEq, Repr

/-- The color-mode block. -/
structure ColorMode where
  respectPrefersColorScheme : Bool
deriving DecidableEq, Repr

/-- The syntax-highlighting theme pair (light palette, dark palette). -/
structure Prism where
  theme : String
  darkTheme : String
deriving DecidableEq, Repr

/-- The themeConfig block of the configuration. -/
structure ThemeConfig where
  announcementBar : Option AnnouncementBar
  image : String
  colorMode : ColorMode
  navbar : Navbar
  footer : Footer
  prism : Prism
deriving DecidableEq, Repr

/-- One external stylesheet entry. -/
structure Stylesheet where
  href : String
  type : String
deriving DecidableEq, Repr

/-- The shape of the exported site configuration object: every
top-level field of the config literal in docusaurus.config.ts. -/
structure SiteConfig where
  title : String
  tagline : String
  favicon : String
  futureV4 : Bool
  url : String
  baseUrl : String
  organizationName : String
  projectName : String
  onBrokenLinks : String
  i18n : I18n
  stylesheets : List Stylesheet
  presetThemeCustomCss : String
  themeConfig : ThemeConfig
deriving DecidableEq, Repr

/-- The absolute link hard-coded inside the announcement-bar content. -/
def announcementLinkHref : String := "/rust-up-knowledge/docs/intro"

/-- The announcement-bar content string, the concatenation of the two
template literals in the source. -/
def announcementContent : String :=
  "My personal Rust knowledge base, built while working through the Rust Book (2021). " ++
  "<a href=\"/rust-up-knowledge/docs/intro\">Start here</a>"

/-- The navbar items of the configuration, verbatim. -/
def navbarItems : List NavItem :=
  [ ⟨"/docs/intro", "Start reading", "left"⟩,
    ⟨"/docs/cheatsheet", "Cheatsheet", "left"⟩,
    ⟨"https://doc.rust-lang.org/book/appendix-01-keywords.html", "Keywords", "left"⟩,
    ⟨"https://doc.rust-lang.org/book/appendix-02-operators.html", "Operators/Symbols", "left"⟩,
    ⟨"https://github.com/boba-jjang/rust-up-knowledge", "Github", "right"⟩ ]

/-- The navbar Cheatsheet entry. -/
def cheatsheetNavItem : NavItem := ⟨"/docs/cheatsheet", "Cheatsheet", "left"⟩

/-- The footer link groups of the configuration, verbatim. -/
def footerLinkGroups : List FooterLinkGroup :=
  [ ⟨"Rust",
      [ ⟨"The Rust Book", "https://doc.rust-lang.org/book/"⟩,
        ⟨"Rust Std Library", "https://doc.rust-lang.org/std/"⟩,
        ⟨"Rust by Example", "https://doc.rust-lang.org/rust-by-example/"⟩ ]⟩,
    ⟨"Playground",
      [ ⟨"Rust Playground", "https://play.rust-lang.org/"⟩,
        ⟨"Compiler Explorer (Godbolt)", "https://godbolt.org/"⟩ ]⟩,
    ⟨"Project",
      [ ⟨"Rust Up Knowledge (GitHub)", "https://github.com/boba-jjang/rust-up-knowledge"⟩ ]⟩ ]

/-- The footer copyright template: the source interpolates the current
year, obtained from the wall clock at build time, into a fixed string. -/
def copyrightText (year : Nat) : String :=
  "\n        © " ++ toString year ++ " boba-jjang · Rust Up Knowledge  \n        <br />\n      "

/-- The exported site configuration object, transcribed field by field
from docusaurus.config.ts.  The build-time wall-clock year consumed by
the footer copyright template is the one explicit parameter. -/
def rukConfig (year : Nat) : SiteConfig :=
  { title := "Rust Up Knowledge"
    tagline := "Keep your Rust sharp. Not rusty."
    favicon := "img/rust-up-knowledge.ico"
    futureV4 := true
    url := "https://jwjang.net"
    baseUrl := "/rust-up-knowledge/"
    organizationName := "boba-jjang"
    projectName := "rust-up-knowledge"
    onBrokenLinks := "throw"
    i18n := ⟨"en", ["en"]⟩
    stylesheets :=
      [ ⟨"https://fonts.googleapis.com/css2?family=Inter:wght@400;500;600;700&family=Source+Serif+4:wght@400;500;600;700&display=swap",
          "text/css"⟩ ]
    presetThemeCustomCss := "./src/css/custom.css"
    themeConfig :=
      { announcementBar := some
          ⟨"rust-up-knowledge-announce-1", "#7063f3", false, announcementContent⟩
        image := "img/docusaurus-social-card.jpg"
        colorMode := ⟨true⟩
        navbar := ⟨"Rust Up Knowledge", ⟨"Rust Up Knowledge", "img/rust.png"⟩, true, navbarItems⟩
        footer := ⟨"dark", footerLinkGroups, copyrightText year⟩
        prism := ⟨"github", "dracula"⟩ } }

/-- Whether one character list starts another. -/
def leadsWith : List Char → List Char → Bool
  | [], _ => true
  | _ :: _, [] => false
  | a :: as, b :: bs => a = b && leadsWith as bs

/-- Whether a character list occurs contiguously inside another. -/
def occursIn (needle : List Char) : List Char → Bool
  | [] => leadsWith needle []
  | b :: bs => leadsWith needle (b :: bs) || occursIn needle bs

/-- Remove a suffix from a character list when present. -/
def removeSuffix (l suf : List Char) : List Char :=
  if l.reverse.take suf.length = suf.reverse then l.take (l.length - suf.length) else l

/-- Modelled from the spec: the default document identifier derived
from a file path when no slug override is present — the path without
its .md extension, with a trailing index component denoting the
enclosing directory itself. -/
def defaultDocId (p : String) : String :=
  let q := removeSuffix p.data ".md".data
  let q := if q = "index".data then [] else removeSuffix q "/index".data
  ⟨q⟩

/-- Modelled from the spec: the site route of a document — the docs
route prefix followed by the slug override when the front-matter has
one, and by the path-derived identifier otherwise. -/
def docRoute (d : Document) : String :=
  match d.fm.slug with
  | some s => "/docs" ++ s
  | none => "/docs/" ++ defaultDocId d.path

/-- Whether a navigation target is an external URL. -/
def isExternalTarget (s : String) : Bool := leadsWith "http".data s.data

/-- Whether a navbar item points at an internal document route. -/
def isInternalItem (i : NavItem) : Bool := !isExternalTarget i.target

/-- Modelled from the spec: the Navigation Composer passes every
configured navbar entry through verbatim into the navigation model. -/
def composedNavbar (cfg : SiteConfig) : List NavItem :=
  cfg.themeConfig.navbar.items

/-- Modelled from the spec: the internal navbar targets that match no
document route — the broken references of the navigation model. -/
def brokenNavTargets (cfg : SiteConfig) (docs : List Document) : List String :=
  (cfg.themeConfig.navbar.items.filter
    (fun i => isInternalItem i && !(docs.map docRoute).contains i.target)).map
    (fun i => i.target)

/-- Outcome of a build: either the emitted page routes, or a fatal
broken-reference error naming the missing targets and emitting
nothing. -/
inductive BuildOutcome where
  | ok (pages : List String)
  | brokenLinkError (missingTargets : List String)
deriving DecidableEq, Repr

/-- Modelled from the spec: with onBrokenLinks set to throw, a build
whose navigation model has broken internal references aborts with an
error naming the missing targets and produces no output; otherwise it
emits one page per document. -/
def build (cfg : SiteConfig) (docs : List Document) : BuildOutcome :=
  if cfg.onBrokenLinks = "throw" ∧ brokenNavTargets cfg docs ≠ [] then
    .brokenLinkError (brokenNavTargets cfg docs)
  else
    .ok (docs.map docRoute)

/-- The announcement banner as it appears on a rendered page: its
content, background color, and whether a dismiss control is offered. -/
structure RenderedBanner where
  content : String
  backgroundColor : String
  hasDismissControl : Bool
deriving DecidableEq, Repr

/-- The navigation model handed to the renderer: the composed navbar
and the per-section ordered sidebars. -/
structure NavModel where
  navbar : List NavItem
  sidebar : List (String × List Document)
deriving DecidableEq, Repr

/-- A rendered document page: the shared chrome from the configuration
and navigation model around the document itself. -/
structure RenderedPage where
  banner : Option RenderedBanner
  navbarTitle : String
  navbarEntries : List NavItem
  sidebar : List (String × List Document)
  content : Document
  footerStyle : String
  footerLinks : List FooterLinkGroup
  copyright : String
deriving DecidableEq, Repr

/-- Modelled from the spec: the Page Renderer — a pure function of one
document, the navigation model and the site configuration, embedding
the announcement banner (with a dismiss control exactly when the bar is
closeable), the navbar, the document, and the footer. -/
def renderPage (d : Document) (nav : NavModel) (cfg : SiteConfig) : RenderedPage :=
  { banner := cfg.themeConfig.announcementBar.map
      (fun ab => ⟨ab.content, ab.backgroundColor, ab.isCloseable⟩)
    navbarTitle := cfg.themeConfig.navbar.title
    navbarEntries := nav.navbar
    sidebar := nav.sidebar
    content := d
    footerStyle := cfg.themeConfig.footer.style
    footerLinks := cfg.themeConfig.footer.links
    copyright := cfg.themeConfig.footer.copyright }

/-- A rendered page with its copyright line blanked, used to state that
the copyright is the only part of the output that can vary. -/
def stripCopyright (r : RenderedPage) : RenderedPage :=
  { r with copyright := "" }

/-- One call-to-action link of the landing page. -/
structure HeroLink where
  className : String
  target : String
  text : String
deriving DecidableEq, Repr

/-- The hero header rendered by the landing page component. -/
structure HeroHeader where
  logoAlt : String
  logoSrc : String
  heroTitle : String
  heroSubtitle : String
  primaryCta : HeroLink
  secondaryLink : HeroLink
deriving DecidableEq, Repr

/-- The landing page: the layout description plus the hero header. -/
structure LandingPage where
  description : String
  header : HeroHeader
deriving DecidableEq, Repr

/-- useBaseUrl from the framework: prefix a site-local path with the
configured base URL. -/
def useBaseUrl (cfg : SiteConfig) (p : String) : String := cfg.baseUrl ++ p

/-- The HomepageHeader component of src/pages/index.tsx: a fixed hero
layout whose only configuration inputs are the site title (logo alt
text) and the base URL (logo src); every text and link target is a
string literal of the component. -/
def HomepageHeader (cfg : SiteConfig) : HeroHeader :=
  { logoAlt := cfg.title
    logoSrc := useBaseUrl cfg "img/rust.png"
    heroTitle := "Quick refresher for busy engineers"
    heroSubtitle := "A giant, collapsible Rust Cheatsheet for fast recall"
    primaryCta := ⟨"button button--primary button--lg", "/docs/intro", "Start reading now →"⟩
    secondaryLink := ⟨"", "/docs/Cheatsheet", "full Cheatsheet"⟩ }

/-- The Home component of src/pages/index.tsx. -/
def Home (cfg : SiteConfig) : LandingPage :=
  ⟨"A living Rust Cheatsheet built from the Rust Book (2021).", HomepageHeader cfg⟩

/-- A page of the site is either a document run through the generic
pipeline or a fixed-layout page outside it. -/
inductive Page where
  | genericDocumentPage (d : Document) (r : RenderedPage)
  | fixedLayoutPage (l : LandingPage)
deriving DecidableEq, Repr

/-- The root page of the site: the landing page, built without any
document. -/
def rootPage (cfg : SiteConfig) : Page := .fixedLayoutPage (Home cfg)

/-- The scenario document of the spec with position 1 and title
Variables. -/
def variablesScenarioDoc : Document :=
  ⟨"scenario/variables.md", "scenario", ⟨some 1, some "Variables", none⟩⟩

/-- The scenario document of the spec with position 2 and title
Ownership. -/
def ownershipScenarioDoc : Document :=
  ⟨"scenario/ownership.md", "scenario", ⟨some 2, some "Ownership", none⟩⟩

/-- The names of the option groups present in the exported
configuration object: its top-level fields, with the themeConfig block
listed through the groups it contributes. -/
def configOptionGroups : List String :=
  ["title", "tagline", "favicon", "future", "url", "baseUrl", "organizationName",
   "projectName", "onBrokenLinks", "i18n", "stylesheets", "presets",
   "announcementBar", "image", "colorMode", "navbar", "footer", "prism"]

/-- The option groups the spec enumerates for the Site Configuration:
title, tagline, base URL, organization/project identifiers, locale
list, announcement bar, navbar, footer, and the light/dark color-theme
pair. -/
def specOptionGroups : List String :=
  ["title", "tagline", "baseUrl", "organizationName", "projectName", "i18n",
   "announcementBar", "navbar", "footer", "prism"]

/-- The configuration contains exactly the option groups the spec
enumerates: each enumerated group is present and no other group is. -/
def configHasExactlySpecGroups : Prop :=
  (∀ g ∈ specOptionGroups, g ∈ configOptionGroups) ∧
  (∀ g ∈ configOptionGroups, g ∈ specOptionGroups)

instance : Decidable configHasExactlySpecGroups := by
  unfold configHasExactlySpecGroups
  exact instDecidableAnd

/-- C1: in the sidebar ordering of a section, a document with a smaller
explicit sidebar position is placed strictly before a same-section
document with a larger explicit position. -/
theorem sidebar_respects_distinct_positions
    (docs : List Document) (sec : String) (a b : Document)
    (ha : a ∈ docs) (hb : b ∈ docs) (hsa : a.dir = sec) (hsb : b.dir = sec)
    (p q : Nat) (hpa : a.fm.sidebar_position = some p)
    (hpb : b.fm.sidebar_position = some q) (hpq : p < q) :
    idx a (sectionSidebar sec docs) < idx b (sectionSidebar sec docs) := by
  have hfa : a ∈ docs.filter (fun d => d.dir = sec) :=
    List.mem_filter.mpr ⟨ha, by simp [hsa]⟩
  have hfb : b ∈ docs.filter (fun d => d.dir = sec) :=
    List.mem_filter.mpr ⟨hb, by simp [hsb]⟩
  apply idx_lt_of_pairwise
  · exact List.sorted_insertionSort sidebarLE _
  · exact (List.mem_insertionSort sidebarLE).mpr hfa
  · exact (List.mem_insertionSort sidebarLE).mpr hfb
  · intro he
    rw [he, hpb] at hpa
    cases hpa
    omega
  · unfold sidebarLE sidebarLEb
    rw [hpa, hpb]
    simp
    omega

/-- C1 witness: the scenario of the spec — position 1 titled Variables
is placed above position 2 titled Ownership. -/
theorem sidebar_scenario_witness :
    idx variablesScenarioDoc
        (sectionSidebar "scenario" [ownershipScenarioDoc, variablesScenarioDoc]) <
      idx ownershipScenarioDoc
        (sectionSidebar "scenario" [ownershipScenarioDoc, variablesScenarioDoc]) :=
  sidebar_respects_distinct_positions
    [ownershipScenarioDoc, variablesScenarioDoc] "scenario"
    variablesScenarioDoc ownershipScenarioDoc
    (by decide) (by decide) (by decide) (by decide) 1 2 rfl rfl (by decide)

/-- C2: with onBrokenLinks set to throw, an internal navbar target
matched by no document route makes the build fail with a
broken-reference error naming that target, and no pages are emitted. -/
theorem broken_internal_nav_target_aborts_build
    (cfg : SiteConfig) (docs : List Document) (i : NavItem)
    (hi : i ∈ cfg.themeConfig.navbar.items)
    (hint : isInternalItem i = true)
    (hthrow : cfg.onBrokenLinks = "throw")
    (hmiss : i.target ∉ docs.map docRoute) :
    build cfg docs = .brokenLinkError (brokenNavTargets cfg docs) ∧
      i.target ∈ brokenNavTargets cfg docs := by
  have hmem : i.target ∈ brokenNavTargets cfg docs := by
    unfold brokenNavTargets
    apply List.mem_map.mpr
    refine ⟨i, List.mem_filter.mpr ⟨hi, ?_⟩, rfl⟩
    simp only [Bool.and_eq_true, Bool.not_eq_true']
    refine ⟨hint, ?_⟩
    simpa using hmiss
  have hne : brokenNavTargets cfg docs ≠ [] := List.ne_nil_of_mem hmem
  constructor
  · unfold build
    rw [if_pos ⟨hthrow, hne⟩]
  · exact hmem

/-- C2 witness: the assembled configuration and the loaded document set
— the Cheatsheet navbar entry targets /docs/cheatsheet, no document has
that route, and the build aborts naming it. -/
theorem cheatsheet_target_aborts_build_witness :
    build (rukConfig 2025) repoDocs =
        .brokenLinkError (brokenNavTargets (rukConfig 2025) repoDocs) ∧
      cheatsheetNavItem.target ∈ brokenNavTargets (rukConfig 2025) repoDocs :=
  broken_internal_nav_target_aborts_build (rukConfig 2025) repoDocs cheatsheetNavItem
    (by decide) (by decide) rfl (by decide)

/-- C3: rendering is a pure function — rendering the same triple twice
gives identical output; over the assembled configuration the build-time
year is the sole source of variation, confined to the footer copyright
line: outputs with the copyright blanked are identical for any two
years, and equal years give byte-identical pages. -/
theorem render_deterministic_up_to_year :
    ∀ (d : Document) (nav : NavModel) (cfg : SiteConfig) (y₁ y₂ : Nat),
      renderPage d nav cfg = renderPage d nav cfg ∧
      (y₁ = y₂ → renderPage d nav (rukConfig y₁) = renderPage d nav (rukConfig y₂)) ∧
      stripCopyright (renderPage d nav (rukConfig y₁)) =
        stripCopyright (renderPage d nav (rukConfig y₂)) ∧
      (renderPage d nav (rukConfig y₁)).copyright = copyrightText y₁ := by
  intro d nav cfg y₁ y₂
  exact ⟨rfl, fun h => by rw [h], rfl, rfl⟩

/-- C3 witness: rendering a concrete page twice in the same build year
yields identical output. -/
theorem render_deterministic_witness :
    renderPage phasesFragment ⟨navbarItems, []⟩ (rukConfig 2025) =
      renderPage phasesFragment ⟨navbarItems, []⟩ (rukConfig 2025) :=
  (render_deterministic_up_to_year phasesFragment ⟨navbarItems, []⟩
    (rukConfig 2025) 2025 2025).2.1 rfl

/-- C4: a non-closeable announcement bar is rendered on every page with
no dismiss control; the assembled configuration sets isCloseable to
false, so every page carries the configured banner unconditionally. -/
theorem non_closeable_banner_on_every_page :
    (∀ (d : Document) (nav : NavModel) (cfg : SiteConfig) (ab : AnnouncementBar),
      cfg.themeConfig.announcementBar = some ab → ab.isCloseable = false →
      (renderPage d nav cfg).banner = some ⟨ab.content, ab.backgroundColor, false⟩) ∧
    (∀ (d : Document) (nav : NavModel) (y : Nat),
      (renderPage d nav (rukConfig y)).banner =
        some ⟨announcementContent, "#7063f3", false⟩) := by
  constructor
  · intro d nav cfg ab hab hclose
    simp [renderPage, hab, hclose]
  · intro d nav y
    rfl

/-- C4 witness: a concrete page rendered under the assembled
configuration carries the banner with no dismiss control. -/
theorem non_closeable_banner_witness :
    (renderPage phasesFragment ⟨navbarItems, []⟩ (rukConfig 2025)).banner =
      some ⟨announcementContent, "#7063f3", false⟩ :=
  non_closeable_banner_on_every_page.1 phasesFragment ⟨navbarItems, []⟩ (rukConfig 2025)
    ⟨"rust-up-knowledge-announce-1", "#7063f3", false, announcementContent⟩ rfl rfl

/-- C5 counterexample: the configuration does not contain exactly the
option groups the spec enumerates — favicon is a group of the exported
configuration object absent from the enumeration (as are url, future,
onBrokenLinks, stylesheets, presets, image and colorMode). -/
theorem config_groups_not_exact :
    ("favicon" ∈ configOptionGroups ∧ "favicon" ∉ specOptionGroups) ∧
      ¬ configHasExactlySpecGroups := by decide

/-- C5 (amended): every option group the spec enumerates is present in
the exported configuration object and carries the well-formed value
transcribed from the source; the object also carries further groups
beyond the enumeration. -/
theorem config_contains_spec_groups : ∀ y : Nat,
    (specOptionGroups.all (fun g => configOptionGroups.contains g) = true) ∧
    (rukConfig y).title = "Rust Up Knowledge" ∧
    (rukConfig y).tagline = "Keep your Rust sharp. Not rusty." ∧
    (rukConfig y).baseUrl = "/rust-up-knowledge/" ∧
    (rukConfig y).organizationName = "boba-jjang" ∧
    (rukConfig y).projectName = "rust-up-knowledge" ∧
    (rukConfig y).i18n = ⟨"en", ["en"]⟩ ∧
    (rukConfig y).i18n.locales.contains (rukConfig y).i18n.defaultLocale = true ∧
    (rukConfig y).themeConfig.announcementBar =
      some ⟨"rust-up-knowledge-announce-1", "#7063f3", false, announcementContent⟩ ∧
    (rukConfig y).themeConfig.navbar.title = "Rust Up Knowledge" ∧
    (rukConfig y).themeConfig.navbar.logo = ⟨"Rust Up Knowledge", "img/rust.png"⟩ ∧
    (rukConfig y).themeConfig.navbar.items = navbarItems ∧
    navbarItems.all
      (fun i => !(i.label == "") && (i.position == "left" || i.position == "right")) = true ∧
    (rukConfig y).themeConfig.footer.style = "dark" ∧
    (rukConfig y).themeConfig.footer.links = footerLinkGroups ∧
    footerLinkGroups.all (fun g => !(g.title == "") && !g.items.isEmpty) = true ∧
    (rukConfig y).themeConfig.prism = ⟨"github", "dracula"⟩ := by
  intro y
  refine ⟨by decide, rfl, rfl, rfl, rfl, rfl, rfl, ?_, rfl, rfl, rfl, rfl,
    by decide, rfl, rfl, by decide, rfl⟩
  show (["en"] : List String).contains "en" = true
  decide

/-- C6: the landing page is a fixed-layout page outside the generic
document pipeline: it is built from the site configuration alone, its
hero text and call-to-action targets are string literals, it takes only
the title and base URL from the configuration, and any two
configurations agreeing on those two fields yield the same page. -/
theorem landing_page_fixed_layout :
    (∀ y : Nat, rootPage (rukConfig y) = Page.fixedLayoutPage (Home (rukConfig y))) ∧
    (∀ cfg : SiteConfig,
      (Home cfg).header.heroTitle = "Quick refresher for busy engineers" ∧
      (Home cfg).header.primaryCta.target = "/docs/intro" ∧
      (Home cfg).header.secondaryLink.target = "/docs/Cheatsheet" ∧
      (Home cfg).header.logoAlt = cfg.title ∧
      (Home cfg).header.logoSrc = cfg.baseUrl ++ "img/rust.png") ∧
    (∀ cfg₁ cfg₂ : SiteConfig, cfg₁.title = cfg₂.title → cfg₁.baseUrl = cfg₂.baseUrl →
      Home cfg₁ = Home cfg₂) := by
  refine ⟨fun y => rfl, fun cfg => ⟨rfl, rfl, rfl, rfl, rfl⟩, ?_⟩
  intro cfg₁ cfg₂ h1 h2
  simp [Home, HomepageHeader, useBaseUrl, h1, h2]

/-- C6 witness: configurations differing only in the build year (a
field the landing page never reads) produce the same landing page. -/
theorem landing_page_fixed_layout_witness :
    Home (rukConfig 2024) = Home (rukConfig 2025) :=
  landing_page_fixed_layout.2.2 (rukConfig 2024) (rukConfig 2025) rfl rfl

/-- C7: an external-URL navbar entry needs no matching document — the
composer passes the whole navbar through verbatim, so the entry appears
unchanged in the navigation model, and an external entry is never among
the broken internal references, whatever the document set. -/
theorem external_nav_entries_pass_through
    (docs : List Document) (i : NavItem) (y : Nat)
    (hi : i ∈ navbarItems) (hext : isExternalTarget i.target = true) :
    composedNavbar (rukConfig y) = navbarItems ∧
    i ∈ composedNavbar (rukConfig y) ∧
    i.target ∉ brokenNavTargets (rukConfig y) docs := by
  refine ⟨rfl, hi, ?_⟩
  intro hmem
  rcases List.mem_map.mp hmem with ⟨j, hj, htj⟩
  have hjint : isInternalItem j = true := by
    have h := (List.mem_filter.mp hj).2
    simp only [Bool.and_eq_true] at h
    exact h.1
  rw [isInternalItem, htj, hext] at hjint
  cases hjint

/-- C7 witness: the GitHub entry passes through verbatim even when the
document set is empty, and is never reported broken. -/
theorem external_nav_entries_witness :
    composedNavbar (rukConfig 2025) = navbarItems ∧
    (⟨"https://github.com/boba-jjang/rust-up-knowledge", "Github", "right"⟩ : NavItem) ∈
      composedNavbar (rukConfig 2025) ∧
    ("https://github.com/boba-jjang/rust-up-knowledge" : String) ∉
      brokenNavTargets (rukConfig 2025) [] :=
  external_nav_entries_pass_through []
    ⟨"https://github.com/boba-jjang/rust-up-knowledge", "Github", "right"⟩ 2025
    (by decide) (by decide)

/-- C8: the navbar Cheatsheet entry targets /docs/cheatsheet while the
landing page secondary link targets /docs/Cheatsheet; the two strings
differ in letter case, so no single slug can equal both. -/
theorem cheatsheet_reference_case_mismatch :
    cheatsheetNavItem ∈ navbarItems ∧
    cheatsheetNavItem.target = "/docs/cheatsheet" ∧
    (∀ cfg : SiteConfig, (Home cfg).header.secondaryLink.target = "/docs/Cheatsheet") ∧
    cheatsheetNavItem.target ≠ "/docs/Cheatsheet" ∧
    (∀ s : String, ¬ (s = cheatsheetNavItem.target ∧ s = "/docs/Cheatsheet")) := by
  refine ⟨by decide, rfl, fun cfg => rfl, by decide, ?_⟩
  rintro s ⟨h1, h2⟩
  exact (by decide : cheatsheetNavItem.target ≠ "/docs/Cheatsheet") (h1.symm.trans h2)

/-- C8 witness: the navbar target itself matches only one of the two
spellings. -/
theorem cheatsheet_case_mismatch_witness :
    ¬ (("/docs/cheatsheet" : String) = cheatsheetNavItem.target ∧
        ("/docs/cheatsheet" : String) = "/docs/Cheatsheet") :=
  cheatsheet_reference_case_mismatch.2.2.2.2 "/docs/cheatsheet"

/-- C9 counterexample: the second file packed into unnamed part 004
(the compilation-phases note) is a content document with no front-matter
header block, hence no explicit sidebar position. -/
theorem position_less_document_exists :
    (phasesFragment ∈ repoDocs ∧ phasesFragment.fm.sidebar_position = none) ∧
      ¬ (∀ d ∈ repoDocs, d.fm.sidebar_position.isSome = true) := by decide

/-- C9 (amended): every content document except the front-matter-less
compilation-phases note declares an explicit integer sidebar position;
the fallback ordering can be exercised for at most that one file. -/
theorem all_but_phases_fragment_positioned :
    repoDocs.filter (fun d => d.fm.sidebar_position = none) = [phasesFragment] ∧
    (repoDocs.filter (fun d => d.fm.sidebar_position.isSome)).length + 1 =
      repoDocs.length := by decide

/-- C10: the absolute link hard-coded in the announcement-bar content
occurs verbatim in that content and equals the configured base URL
followed by docs/intro; the base URL is the only string whose
concatenation with docs/intro gives that link, so changing baseUrl
alone breaks the equality. -/
theorem announcement_link_matches_base_url :
    occursIn announcementLinkHref.data announcementContent.data = true ∧
    (∀ y : Nat, announcementLinkHref = (rukConfig y).baseUrl ++ "docs/intro") ∧
    (∀ b : String, announcementLinkHref = b ++ "docs/intro" → b = "/rust-up-knowledge/") := by
  refine ⟨by decide, fun y => ?_, ?_⟩
  · show announcementLinkHref = "/rust-up-knowledge/" ++ "docs/intro"
    decide
  intro b hb
  have hlit : announcementLinkHref = "/rust-up-knowledge/" ++ "docs/intro" := by decide
  have hdata : b.data ++ "docs/intro".data = "/rust-up-knowledge/".data ++ "docs/intro".data := by
    have h2 : b ++ "docs/intro" = "/rust-up-knowledge/" ++ "docs/intro" := hb.symm.trans hlit
    have h3 := congrArg String.data h2
    rwa [String.data_append, String.data_append] at h3
  exact String.ext (List.append_cancel_right hdata)

/-- C10 witness: instantiating the cancellation property at the
configured base URL itself. -/
theorem announcement_link_witness :
    ("/rust-up-knowledge/" : String) = "/rust-up-knowledge/" :=
  announcement_link_matches_base_url.2.2 "/rust-up-knowledge/" (by decide)

end RustUp
